import Mathlib

/-!
Shallow embedding of `src/icp_rust_boilerplate_backend/src/lib.rs`
(the `icp_rust_shoeStore` canister) and proofs of the specification claims.

Modelling conventions:
* `u64` values (ids, the id counter, timestamps) are `Nat`; where overflow
  matters the wrap `% 2^64` is written explicitly.
* `i16` values (price, quantity) are `Int`; the `i16` wrapping sum of
  `total_number_of_shoes` is modelled with an explicit 16-bit wrap.
* `Principal` is modelled as its textual form (`String`): the source only
  ever compares principals via `to_string()` equality and formats them
  into messages.
* The stable BTree map is modelled as an association list
  `List (Nat × Shoe)`; `StableBTreeMap` keeps keys unique, which appears
  as a `Nodup` hypothesis where a theorem needs it.
* A Rust panic (`unwrap` on `None`) aborts the whole call; operations that
  can panic return `Option`, with `none` denoting the aborted call.
* The host-supplied `caller()` and `time()` are explicit parameters.
-/

namespace ShoeStore

/-! ### A regular-expression engine (Brzozowski derivatives)

`is_valid_url` in the source is `Regex::is_match` for the anchored pattern
`^(http://www\.|https://www\.|http://|https://)?[a-z0-9]+([\-\.]{1}[a-z0-9]+)*\.[a-z]{2,5}(:[0-9]{1,5})?(/.*)?$`.
We embed the pattern as a regular-expression AST and decide whole-string
matching by derivatives, which is what `is_match` on an anchored pattern
computes. -/

inductive RE where
  | emp : RE
  | eps : RE
  | cls : (Char → Bool) → RE
  | cat : RE → RE → RE
  | alt : RE → RE → RE
  | star : RE → RE

namespace RE

def nullable : RE → Bool
  | emp => false
  | eps => true
  | cls _ => false
  | cat a b => nullable a && nullable b
  | alt a b => nullable a || nullable b
  | star _ => true

/-- Smart concatenation (keeps derivatives small; same language). -/
def scat : RE → RE → RE
  | emp, _ => emp
  | eps, b => b
  | a, b => cat a b

/-- Smart alternation (keeps derivatives small; same language). -/
def salt : RE → RE → RE
  | emp, b => b
  | a, emp => a
  | a, b => alt a b

def deriv : RE → Char → RE
  | emp, _ => emp
  | eps, _ => emp
  | cls p, c => if p c then eps else emp
  | cat a b, c =>
      if nullable a then salt (scat (deriv a c) b) (deriv b c)
      else scat (deriv a c) b
  | alt a b, c => salt (deriv a c) (deriv b c)
  | star a, c => scat (deriv a c) (star a)

def reMatch (r : RE) (cs : List Char) : Bool :=
  nullable (cs.foldl deriv r)

/-- `r?` -/
def opt (r : RE) : RE := alt eps r

/-- `r+` -/
def plus (r : RE) : RE := cat r (star r)

/-- Literal string. -/
def lit (s : String) : RE :=
  s.data.foldr (fun c r => cat (cls (fun x => x == c)) r) eps

/-- `r{1,n}`: one up to `n` copies. -/
def repUpTo : Nat → RE → RE
  | 0, _ => emp
  | 1, r => r
  | n + 1, r => cat r (opt (repUpTo n r))

end RE

open RE in
/-- The character classes of the URL pattern. -/
def lowerAlnum : RE := cls (fun c => ('a' ≤ c && c ≤ 'z') || ('0' ≤ c && c ≤ '9'))

open RE in
def lowerAlpha : RE := cls (fun c => 'a' ≤ c && c ≤ 'z')

open RE in
def digitC : RE := cls (fun c => '0' ≤ c && c ≤ '9')

open RE in
def dotOrDash : RE := cls (fun c => c == '-' || c == '.')

open RE in
/-- `.` in the `regex` crate: any character except a newline. -/
def anyNoNl : RE := cls (fun c => !(c == Char.ofNat 10))

open RE in
/-- The URL pattern of `is_valid_url`, as a regular-expression AST. -/
def urlRE : RE :=
  cat (opt (alt (lit "http://www.")
        (alt (lit "https://www.") (alt (lit "http://") (lit "https://")))))
  (cat (plus lowerAlnum)
  (cat (star (cat dotOrDash (plus lowerAlnum)))
  (cat (cls (fun c => c == '.'))
  (cat (cat lowerAlpha (cat lowerAlpha (opt (repUpTo 3 lowerAlpha))))
  (cat (opt (cat (cls (fun c => c == ':')) (repUpTo 5 digitC)))
       (opt (cat (cls (fun c => c == '/')) (star anyNoNl))))))))

def is_valid_url (url : String) : Bool :=
  RE.reMatch urlRE url.data

def is_valid_price (price : Int) : Bool :=
  price ≥ 0

def is_valid_quantity (quantity : Int) : Bool :=
  quantity > 0

/-! ### Data model -/

structure Shoe where
  owner : String
  id : Nat
  name : String
  size : String
  shoe_url : String
  price : Int
  quantity : Int
  like : Nat
  liked_by : List String
  created_at : Nat
  updated_at : Option Nat
  deriving Repr, DecidableEq

structure ShoePayload where
  name : String
  size : String
  shoe_url : String
  price : Int
  quantity : Int
  deriving Repr, DecidableEq

inductive Error where
  | NotFound (msg : String)
  | NotAuthorized (msg : String) (caller : String)
  | AlreadyLiked (msg : String)
  deriving Repr, DecidableEq

def validate_shoe_payload (payload : ShoePayload) : Except String Unit :=
  if !is_valid_url payload.shoe_url then
    Except.error "Invalid URL format"
  else if !is_valid_price payload.price then
    Except.error "Invalid price value"
  else if !is_valid_quantity payload.quantity then
    Except.error "Invalid quantity value"
  else
    Except.ok ()

/-! ### The stable map and the canister state -/

/-- `StableBTreeMap::get`: first binding for the key. -/
def mapGet (m : List (Nat × Shoe)) (k : Nat) : Option Shoe :=
  match m with
  | [] => none
  | (k', v) :: rest => if k' = k then some v else mapGet rest k

/-- `StableBTreeMap::insert`: replace the binding for the key, or add one. -/
def mapInsert (m : List (Nat × Shoe)) (k : Nat) (v : Shoe) : List (Nat × Shoe) :=
  match m with
  | [] => [(k, v)]
  | (k', v') :: rest =>
      if k' = k then (k, v) :: rest else (k', v') :: mapInsert rest k v

/-- `StableBTreeMap::remove`: drop the binding for the key. -/
def mapRemove (m : List (Nat × Shoe)) (k : Nat) : List (Nat × Shoe) :=
  match m with
  | [] => []
  | (k', v') :: rest =>
      if k' = k then rest else (k', v') :: mapRemove rest k

/-- The canister state: the `ID_COUNTER` cell and `SHOE_STORAGE` map. -/
structure StoreState where
  counter : Nat
  storage : List (Nat × Shoe)
  deriving Repr, DecidableEq

def initState : StoreState := { counter := 0, storage := [] }

/-- A single-quote character, for the messages the source formats. -/
def sq : String := String.singleton (Char.ofNat 39)

/-! ### Helper functions of the source -/

/-- `_get_shoe`: lookup in `SHOE_STORAGE`. -/
def _get_shoe (s : StoreState) (id : Nat) : Option Shoe :=
  mapGet s.storage id

/-- `_validate_owner`: the caller's text equals the stored owner's text. -/
def _validate_owner (caller : String) (shoe : Shoe) : Bool :=
  if shoe.owner ≠ caller then false else true

/-- `do_insert`: insert keyed by the shoe's own `id` field. -/
def do_insert (s : StoreState) (shoe : Shoe) : StoreState :=
  { s with storage := mapInsert s.storage shoe.id shoe }

/-! ### Operations -/

/-- `add_shoe`. `caller` and `now` are the host's `caller()` and `time()`. -/
def add_shoe (caller : String) (now : Nat) (s : StoreState)
    (shoe_payload : ShoePayload) : Except String Shoe × StoreState :=
  match validate_shoe_payload shoe_payload with
  | Except.error e => (Except.error e, s)
  | Except.ok () =>
    let id := s.counter
    let s1 : StoreState := { s with counter := (s.counter + 1) % 2 ^ 64 }
    let shoe : Shoe :=
      { owner := caller
        id := id
        name := shoe_payload.name
        size := shoe_payload.size
        shoe_url := shoe_payload.shoe_url
        price := shoe_payload.price
        quantity := shoe_payload.quantity
        like := 0
        liked_by := []
        created_at := now
        updated_at := none }
    (Except.ok shoe, do_insert s1 shoe)

/-- The comparison of `shoes.sort_by_key(|shoe| shoe.price)`. -/
def priceRel (a b : Shoe) : Prop := a.price ≤ b.price

instance : DecidableRel priceRel := fun a b => Int.decLe a.price b.price

instance : IsTotal Shoe priceRel := ⟨fun a b => Int.le_total a.price b.price⟩

instance : IsTrans Shoe priceRel := ⟨fun _ _ _ h1 h2 => le_trans h1 h2⟩

/-- The comparison of `shoes.sort_by_key(|shoe| shoe.created_at)`. -/
def createdRel (a b : Shoe) : Prop := a.created_at ≤ b.created_at

instance : DecidableRel createdRel := fun a b => Nat.decLe a.created_at b.created_at

instance : IsTotal Shoe createdRel := ⟨fun a b => Nat.le_total a.created_at b.created_at⟩

instance : IsTrans Shoe createdRel := ⟨fun _ _ _ h1 h2 => le_trans h1 h2⟩

/-- `get_shoes`: sort all records by the requested key, then paginate.
`Vec::sort_by_key` is a stable sort; a stable sort's output (sortedness,
permutation and tie order) is uniquely determined, so it is modelled by
insertion sort, which is also stable. The Rust `match` on the string is
rendered as an if-chain.

Pagination arithmetic is done in `usize`, which is 32 bits on the
canister's wasm32 target: in the deployed (release) build both
`page * page_size` and `start + page_size` wrap modulo `2^32`. The slice
`shoes[start..min(end, len)]` panics when the wrapped `end` makes the range
reversed (`start > min(end, len)`); that abort is modelled as `none`. -/
def get_shoes (s : StoreState) (page page_size : Nat) (sort_by : String) :
    Option (Except String (List Shoe)) :=
  let shoes := s.storage.map Prod.snd
  if sort_by = "price" then
    let sorted := shoes.insertionSort priceRel
    let start := (page * page_size) % 2 ^ 32
    let en := (start + page_size) % 2 ^ 32
    if start ≥ sorted.length then some (Except.ok [])
    else if start > min en sorted.length then none
    else some (Except.ok ((sorted.drop start).take (min en sorted.length - start)))
  else if sort_by = "created_at" then
    let sorted := shoes.insertionSort createdRel
    let start := (page * page_size) % 2 ^ 32
    let en := (start + page_size) % 2 ^ 32
    if start ≥ sorted.length then some (Except.ok [])
    else if start > min en sorted.length then none
    else some (Except.ok ((sorted.drop start).take (min en sorted.length - start)))
  else some (Except.error "Invalid sorting parameter")

/-- `get_shoe_by_id`. -/
def get_shoe_by_id (s : StoreState) (id : Nat) : Except Error Shoe :=
  match _get_shoe s id with
  | some shoe => Except.ok shoe
  | none => Except.error (Error.NotFound ("a shoe with id=" ++ toString id ++ " not found"))

/-- The wrap of a mathematical integer into the signed 16-bit domain
`[-32768, 32767]` (release-mode `i16` wrapping arithmetic). -/
def wrap16 (x : Int) : Int := (x + 32768) % 65536 - 32768

/-- `total_number_of_shoes`: the `i16` (wrapping) sum of the quantities. -/
def total_number_of_shoes (s : StoreState) : Int :=
  s.storage.foldl (fun acc p => wrap16 (acc + p.2.quantity)) 0

/-- The message of `update_shoe`'s `NotAuthorized` error. -/
def updateNotAuthMsg (id : Nat) : String :=
  "You" ++ sq ++ "re not the owner of the shoe with id=" ++ toString id

/-- The message of `update_shoe`'s (dead) `NotFound` branch. -/
def updateNotFoundMsg (id : Nat) : String :=
  "couldn" ++ sq ++ "t update a shoe with id=" ++ toString id ++ ". shoe not found"

/-- `update_shoe`; `none` is the trap of `_get_shoe(&id).unwrap()` on `None`. -/
def update_shoe (caller : String) (now : Nat) (s : StoreState) (id : Nat)
    (payload : ShoePayload) : Option (Except Error Shoe × StoreState) :=
  match _get_shoe s id with
  | none => none
  | some shoe0 =>
    if !_validate_owner caller shoe0 then
      some (Except.error (Error.NotAuthorized (updateNotAuthMsg id) caller), s)
    else
      match mapGet s.storage id with
      | some shoe =>
        let shoe' : Shoe :=
          { shoe with
            name := payload.name
            size := payload.size
            price := payload.price
            shoe_url := payload.shoe_url
            quantity := payload.quantity
            updated_at := some now }
        some (Except.ok shoe', do_insert s shoe')
      | none => some (Except.error (Error.NotFound (updateNotFoundMsg id)), s)

/-- `like_shoe`. -/
def like_shoe (caller : String) (s : StoreState) (id : Nat) :
    Except Error Shoe × StoreState :=
  match _get_shoe s id with
  | some likes_shoe =>
    let index := likes_shoe.liked_by.findIdx? (fun user => user == caller)
    if index.isSome then
      (Except.error (Error.AlreadyLiked
        ("Shoe with ID " ++ toString id ++ " has already been liked by caller: "
          ++ caller ++ ".")), s)
    else
      let shoe' : Shoe :=
        { likes_shoe with like := 1, liked_by := likes_shoe.liked_by ++ [caller] }
      (Except.ok shoe', do_insert s shoe')
  | none =>
    (Except.error (Error.NotFound
      ("Shoe with ID " ++ toString id ++ " not found. Cannot like.")), s)

/-- The message of `delete_shoe`'s `NotAuthorized` error. -/
def deleteNotAuthMsg (id : Nat) : String :=
  "You" ++ sq ++ "re not the store owner with id=" ++ toString id

/-- The message of `delete_shoe`'s `NotFound` branch. -/
def deleteNotFoundMsg (id : Nat) : String :=
  "couldn" ++ sq ++ "t delete a shoe with id=" ++ toString id ++ ". shoe not found."

/-- `delete_shoe`; `none` is the trap of `_get_shoe(&id).unwrap()` on `None`. -/
def delete_shoe (caller : String) (s : StoreState) (id : Nat) :
    Option (Except Error Shoe × StoreState) :=
  match _get_shoe s id with
  | none => none
  | some shoe0 =>
    if !_validate_owner caller shoe0 then
      some (Except.error (Error.NotAuthorized (deleteNotAuthMsg id) caller), s)
    else
      let removed := mapGet s.storage id
      let s' : StoreState := { s with storage := mapRemove s.storage id }
      match removed with
      | some shoe => some (Except.ok shoe, s')
      | none => some (Except.error (Error.NotFound (deleteNotFoundMsg id)), s')

/-! ### Derived notions used by the claims -/

/-- The record-level part of the payload validation rules: `price ≥ 0` and
`quantity > 0` (the fields `validate_shoe_payload` checks on the record's
numeric data). -/
def shoeOk (sh : Shoe) : Bool :=
  is_valid_price sh.price && is_valid_quantity sh.quantity

/-- Every stored record satisfies `shoeOk`. -/
def storeOk (s : StoreState) : Bool :=
  s.storage.all fun q => shoeOk q.2

/-- The record `update_shoe` writes back on authorization success. -/
def updatedShoe (sh : Shoe) (payload : ShoePayload) (now : Nat) : Shoe :=
  { sh with
    name := payload.name
    size := payload.size
    price := payload.price
    shoe_url := payload.shoe_url
    quantity := payload.quantity
    updated_at := some now }

/-- The record `like_shoe` writes back on success. -/
def likedShoe (sh : Shoe) (caller : String) : Shoe :=
  { sh with like := 1, liked_by := sh.liked_by ++ [caller] }

/-- The successive pages `get_shoes (0..N) page_size "price"` returns. -/
def pageList (s : StoreState) (page_size N : Nat) : List (List Shoe) :=
  (List.range N).map fun i =>
    match get_shoes s i page_size "price" with
    | some (Except.ok l) => l
    | _ => []

/-! ### Concrete scenarios (used by counterexamples and witnesses) -/

/-- A payload that passes validation. -/
def okPayload : ShoePayload :=
  { name := "runner", size := "42", shoe_url := "example.com", price := 10, quantity := 5 }

/-- The same payload with `quantity = 0`, which fails validation. -/
def zeroQtyPayload : ShoePayload := { okPayload with quantity := 0 }

/-- One shoe added by `"alice"`. -/
def c1State1 : StoreState := (add_shoe "alice" 100 initState okPayload).2

/-- The call `update_shoe` by the owner with the invalid payload, with a
default that the proof shows is not taken. -/
def c1Step : Except Error Shoe × StoreState :=
  (update_shoe "alice" 200 c1State1 0 zeroQtyPayload).getD
    (Except.error (Error.NotFound ""), c1State1)

/-- The state after that update. -/
def c1State2 : StoreState := c1Step.2

/-- A payload whose quantity is large enough that two of them overflow `i16`. -/
def bigQtyPayload : ShoePayload := { okPayload with quantity := 20000 }

/-- Two shoes of quantity 20000 each: the mathematical stock total is 40000,
outside the `i16` domain. -/
def c9State : StoreState :=
  (add_shoe "bob" 7 (add_shoe "alice" 5 initState bigQtyPayload).2 bigQtyPayload).2

/-! ### Lemmas about the map model -/

theorem mapGet_mapInsert_self (m : List (Nat × Shoe)) (k : Nat) (v : Shoe) :
    mapGet (mapInsert m k v) k = some v := by
  induction m with
  | nil => simp [mapGet, mapInsert]
  | cons p rest ih =>
    obtain ⟨a, b⟩ := p
    by_cases h : a = k <;> simp [mapGet, mapInsert, h, ih]

theorem mapGet_mapInsert_ne (m : List (Nat × Shoe)) (k k' : Nat) (v : Shoe)
    (h : k' ≠ k) : mapGet (mapInsert m k v) k' = mapGet m k' := by
  induction m with
  | nil => simp [mapGet, mapInsert, Ne.symm h]
  | cons p rest ih =>
    obtain ⟨a, b⟩ := p
    by_cases ha : a = k
    · subst ha
      simp [mapGet, mapInsert, Ne.symm h]
    · by_cases ha' : a = k' <;> simp [mapGet, mapInsert, h, ha, ha', ih]

theorem mapGet_mapRemove_ne (m : List (Nat × Shoe)) (k k' : Nat)
    (h : k' ≠ k) : mapGet (mapRemove m k) k' = mapGet m k' := by
  induction m with
  | nil => simp [mapRemove]
  | cons p rest ih =>
    obtain ⟨a, b⟩ := p
    by_cases ha : a = k
    · subst ha
      simp [mapGet, mapRemove, Ne.symm h]
    · by_cases ha' : a = k' <;> simp [mapGet, mapRemove, h, ha, ha', ih]

theorem mapGet_eq_none_of_not_mem_keys (m : List (Nat × Shoe)) (k : Nat)
    (h : k ∉ m.map Prod.fst) : mapGet m k = none := by
  induction m with
  | nil => simp [mapGet]
  | cons p rest ih =>
    obtain ⟨a, b⟩ := p
    simp only [List.map_cons, List.mem_cons, not_or] at h
    simp [mapGet, Ne.symm h.1, ih h.2]

theorem mapGet_mapRemove_self (m : List (Nat × Shoe)) (k : Nat)
    (hnd : (m.map Prod.fst).Nodup) : mapGet (mapRemove m k) k = none := by
  induction m with
  | nil => simp [mapRemove, mapGet]
  | cons p rest ih =>
    obtain ⟨a, b⟩ := p
    simp only [List.map_cons, List.nodup_cons] at hnd
    by_cases ha : a = k
    · subst ha
      have := mapGet_eq_none_of_not_mem_keys rest a hnd.1
      simpa [mapRemove] using this
    · simp [mapRemove, mapGet, ha, ih hnd.2]

theorem mem_of_mem_mapInsert (m : List (Nat × Shoe)) (k : Nat) (v : Shoe)
    (p : Nat × Shoe) (h : p ∈ mapInsert m k v) : p = (k, v) ∨ p ∈ m := by
  induction m with
  | nil => simpa [mapInsert] using h
  | cons q rest ih =>
    obtain ⟨a, b⟩ := q
    by_cases ha : a = k
    · subst ha
      rcases (by simpa [mapInsert] using h : p = (a, v) ∨ p ∈ rest) with h' | h'
      · exact Or.inl h'
      · exact Or.inr (List.mem_cons_of_mem _ h')
    · rcases (by simpa [mapInsert, ha] using h : p = (a, b) ∨ p ∈ mapInsert rest k v)
        with h' | h'
      · exact Or.inr (h' ▸ List.mem_cons_self _ _)
      · rcases ih h' with h'' | h''
        · exact Or.inl h''
        · exact Or.inr (List.mem_cons_of_mem _ h'')

theorem mem_of_mem_mapRemove (m : List (Nat × Shoe)) (k : Nat)
    (p : Nat × Shoe) (h : p ∈ mapRemove m k) : p ∈ m := by
  induction m with
  | nil => simp [mapRemove] at h
  | cons q rest ih =>
    obtain ⟨a, b⟩ := q
    by_cases ha : a = k
    · subst ha
      exact List.mem_cons_of_mem _ (by simpa [mapRemove] using h)
    · rcases (by simpa [mapRemove, ha] using h : p = (a, b) ∨ p ∈ mapRemove rest k)
        with h' | h'
      · exact h' ▸ List.mem_cons_self _ _
      · exact List.mem_cons_of_mem _ (ih h')

theorem mem_of_mapGet_eq_some (m : List (Nat × Shoe)) (k : Nat) (v : Shoe)
    (h : mapGet m k = some v) : (k, v) ∈ m := by
  induction m with
  | nil => simp [mapGet] at h
  | cons q rest ih =>
    obtain ⟨a, b⟩ := q
    by_cases ha : a = k
    · subst ha
      obtain rfl : b = v := by simpa [mapGet] using h
      exact List.mem_cons_self _ _
    · simp only [mapGet, if_neg ha] at h
      exact List.mem_cons_of_mem _ (ih h)

/-! ### Lemmas about validation -/

theorem validate_shoe_payload_ok_iff (p : ShoePayload) :
    validate_shoe_payload p = Except.ok () ↔
      is_valid_url p.shoe_url = true ∧ 0 ≤ p.price ∧ 0 < p.quantity := by
  unfold validate_shoe_payload
  by_cases h1 : is_valid_url p.shoe_url <;>
    by_cases h2 : is_valid_price p.price <;>
      by_cases h3 : is_valid_quantity p.quantity <;>
        simp_all [is_valid_price, is_valid_quantity]

/-- A default record used only to name values extracted from `Option`s. -/
def dummyShoe : Shoe :=
  { owner := "", id := 0, name := "", size := "", shoe_url := "", price := 0,
    quantity := 0, like := 0, liked_by := [], created_at := 0, updated_at := none }

/-- The record stored at id 0 of `c1State1`. -/
def c1Shoe : Shoe := (mapGet c1State1.storage 0).getD dummyShoe

/-! ### Claim theorems -/

/-- C5: for every payload failing validation, `add_shoe` returns the
validation error naming the first failing rule in the order URL, then price,
then quantity, and performs no state change at all (the returned state is the
input state: same map, same counter, so no id is allocated). -/
theorem C5_add_shoe_invalid (caller : String) (now : Nat) (s : StoreState)
    (p : ShoePayload) :
    (is_valid_url p.shoe_url = false →
      add_shoe caller now s p = (Except.error "Invalid URL format", s)) ∧
    (is_valid_url p.shoe_url = true → p.price < 0 →
      add_shoe caller now s p = (Except.error "Invalid price value", s)) ∧
    (is_valid_url p.shoe_url = true → 0 ≤ p.price → p.quantity ≤ 0 →
      add_shoe caller now s p = (Except.error "Invalid quantity value", s)) := by
  refine ⟨fun h1 => ?_, fun h1 h2 => ?_, fun h1 h2 h3 => ?_⟩
  · simp [add_shoe, validate_shoe_payload, h1]
  · have hp : is_valid_price p.price = false := by
      simp only [is_valid_price, decide_eq_false_iff_not]
      omega
    simp [add_shoe, validate_shoe_payload, h1, hp]
  · have hp : is_valid_price p.price = true := by
      simp only [is_valid_price, decide_eq_true_eq]
      omega
    have hq : is_valid_quantity p.quantity = false := by
      simp only [is_valid_quantity, decide_eq_false_iff_not]
      omega
    simp [add_shoe, validate_shoe_payload, h1, hp, hq]

/-- Witness for C5: the three failure branches at concrete inputs. -/
theorem C5_add_shoe_invalid_witness :
    add_shoe "alice" 5 initState { okPayload with shoe_url := "not a url" } =
      (Except.error "Invalid URL format", initState) ∧
    add_shoe "alice" 5 initState { okPayload with price := -1 } =
      (Except.error "Invalid price value", initState) ∧
    add_shoe "alice" 5 initState zeroQtyPayload =
      (Except.error "Invalid quantity value", initState) :=
  ⟨(C5_add_shoe_invalid "alice" 5 initState _).1 (by decide),
   (C5_add_shoe_invalid "alice" 5 initState _).2.1 (by decide) (by decide),
   (C5_add_shoe_invalid "alice" 5 initState _).2.2 (by decide) (by decide) (by decide)⟩

/-- C2: for an id absent from the map, `update_shoe` and `delete_shoe` abort
the whole call (the `unwrap` of the lookup before the ownership check, `none`
in the model) rather than returning `NotFound`; and when the record exists
and the ownership check passes, `delete_shoe` returns the removed record (the
`NotFound` branch after the remove is not taken). -/
theorem C2_missing_record_aborts (caller : String) (now : Nat) (s : StoreState)
    (id : Nat) (p : ShoePayload) :
    (mapGet s.storage id = none →
      update_shoe caller now s id p = none ∧ delete_shoe caller s id = none) ∧
    (∀ sh, mapGet s.storage id = some sh → sh.owner = caller →
      delete_shoe caller s id =
        some (Except.ok sh, { s with storage := mapRemove s.storage id })) := by
  constructor
  · intro h
    exact ⟨by simp [update_shoe, _get_shoe, h], by simp [delete_shoe, _get_shoe, h]⟩
  · intro sh h hown
    simp [delete_shoe, _get_shoe, h, _validate_owner, hown]

/-- Witness for C2: id 5 is absent from the empty store; and the owner
deleting id 0 of the one-shoe store gets the removed record back. -/
theorem C2_missing_record_aborts_witness :
    (update_shoe "bob" 9 initState 5 okPayload = none ∧
      delete_shoe "bob" initState 5 = none) ∧
    delete_shoe "alice" c1State1 0 =
      some (Except.ok c1Shoe, { c1State1 with storage := mapRemove c1State1.storage 0 }) :=
  ⟨(C2_missing_record_aborts "bob" 9 initState 5 okPayload).1 (by decide),
   (C2_missing_record_aborts "alice" 9 c1State1 0 okPayload).2 c1Shoe
     (by decide) (by decide)⟩

/-- C3: for an existing record, a non-owner caller gets `NotAuthorized`
carrying the caller identity with the state (and so the stored record)
unchanged; the owner gets exactly the payload fields overwritten,
`updated_at` set to the host time, all other fields untouched, the record
written back under its id, the counter untouched, all other map entries
untouched, and the updated record returned as stored. -/
theorem C3_update_shoe (caller : String) (now : Nat) (s : StoreState) (id : Nat)
    (p : ShoePayload) (sh : Shoe)
    (hget : mapGet s.storage id = some sh) (hid : sh.id = id) :
    (sh.owner ≠ caller →
      update_shoe caller now s id p =
        some (Except.error (Error.NotAuthorized (updateNotAuthMsg id) caller), s)) ∧
    (sh.owner = caller →
      update_shoe caller now s id p =
        some (Except.ok (updatedShoe sh p now), do_insert s (updatedShoe sh p now)) ∧
      mapGet (do_insert s (updatedShoe sh p now)).storage id =
        some (updatedShoe sh p now) ∧
      (do_insert s (updatedShoe sh p now)).counter = s.counter ∧
      (∀ k, k ≠ id →
        mapGet (do_insert s (updatedShoe sh p now)).storage k = mapGet s.storage k) ∧
      (updatedShoe sh p now).name = p.name ∧
      (updatedShoe sh p now).size = p.size ∧
      (updatedShoe sh p now).price = p.price ∧
      (updatedShoe sh p now).shoe_url = p.shoe_url ∧
      (updatedShoe sh p now).quantity = p.quantity ∧
      (updatedShoe sh p now).updated_at = some now ∧
      (updatedShoe sh p now).owner = sh.owner ∧
      (updatedShoe sh p now).id = sh.id ∧
      (updatedShoe sh p now).created_at = sh.created_at ∧
      (updatedShoe sh p now).like = sh.like ∧
      (updatedShoe sh p now).liked_by = sh.liked_by) := by
  constructor
  · intro hown
    simp [update_shoe, _get_shoe, hget, _validate_owner, hown]
  · intro hown
    refine ⟨?_, ?_, rfl, ?_, rfl, rfl, rfl, rfl, rfl, rfl, rfl, rfl, rfl, rfl, rfl⟩
    · simp [update_shoe, _get_shoe, hget, _validate_owner, hown, updatedShoe, do_insert]
    · show mapGet (mapInsert s.storage (updatedShoe sh p now).id _) id = _
      have : (updatedShoe sh p now).id = id := hid
      rw [this]
      exact mapGet_mapInsert_self _ _ _
    · intro k hk
      show mapGet (mapInsert s.storage (updatedShoe sh p now).id _) k = _
      have : (updatedShoe sh p now).id = id := hid
      rw [this]
      exact mapGet_mapInsert_ne _ _ _ _ hk

/-- Witness for C3: on the one-shoe store, `"bob"` is refused and the state
is unchanged; the owner `"alice"` gets the update stored. -/
theorem C3_update_shoe_witness :
    update_shoe "bob" 300 c1State1 0 okPayload =
      some (Except.error (Error.NotAuthorized (updateNotAuthMsg 0) "bob"), c1State1) ∧
    update_shoe "alice" 300 c1State1 0 okPayload =
      some (Except.ok (updatedShoe c1Shoe okPayload 300),
        do_insert c1State1 (updatedShoe c1Shoe okPayload 300)) :=
  ⟨(C3_update_shoe "bob" 300 c1State1 0 okPayload c1Shoe
      (by decide) (by decide)).1 (by decide),
   ((C3_update_shoe "alice" 300 c1State1 0 okPayload c1Shoe
      (by decide) (by decide)).2 (by decide)).1⟩

/-- C4: for a payload passing validation, `add_shoe` allocates the current
counter value as the id (an id no live record has, given the allocator
invariant that every stored key is below the counter), advances the counter
by one, stores a record binding `owner` to the caller, `like` 0, `liked_by`
empty, `created_at` to the host time, `updated_at` absent and the payload
fields, returns that record as stored, modifies no other map entry, and
re-establishes the allocator invariant. -/
theorem C4_add_shoe_valid (caller : String) (now : Nat) (s : StoreState)
    (p : ShoePayload)
    (hv : validate_shoe_payload p = Except.ok ())
    (hkeys : ∀ q ∈ s.storage, q.1 < s.counter)
    (hc : s.counter + 1 < 2 ^ 64) :
    ∃ shoe s', add_shoe caller now s p = (Except.ok shoe, s') ∧
      shoe.id = s.counter ∧
      mapGet s.storage shoe.id = none ∧
      shoe.owner = caller ∧ shoe.like = 0 ∧ shoe.liked_by = [] ∧
      shoe.created_at = now ∧ shoe.updated_at = none ∧
      shoe.name = p.name ∧ shoe.size = p.size ∧ shoe.shoe_url = p.shoe_url ∧
      shoe.price = p.price ∧ shoe.quantity = p.quantity ∧
      s'.counter = s.counter + 1 ∧
      mapGet s'.storage shoe.id = some shoe ∧
      (∀ k, k ≠ shoe.id → mapGet s'.storage k = mapGet s.storage k) ∧
      (∀ q ∈ s'.storage, q.1 < s'.counter) := by
  have hmod : (s.counter + 1) % 2 ^ 64 = s.counter + 1 := Nat.mod_eq_of_lt hc
  have hnone : mapGet s.storage s.counter = none := by
    apply mapGet_eq_none_of_not_mem_keys
    intro hmem
    obtain ⟨q, hq, hq'⟩ := List.mem_map.mp hmem
    exact absurd (hq' ▸ hkeys q hq) (lt_irrefl _)
  simp only [add_shoe, hv]
  refine ⟨_, _, rfl, rfl, hnone, rfl, rfl, rfl, rfl, rfl,
    rfl, rfl, rfl, rfl, rfl, ?_, ?_, ?_, ?_⟩
  · exact hmod
  · exact mapGet_mapInsert_self _ _ _
  · intro k hk
    exact mapGet_mapInsert_ne _ _ _ _ hk
  · intro q hq
    simp only [do_insert, hmod] at hq ⊢
    rcases mem_of_mem_mapInsert _ _ _ _ hq with h' | h'
    · simp [h']
    · exact Nat.lt_succ_of_lt (hkeys q h')

/-- Witness for C4: adding a valid payload to the empty store allocates
id 0, sets the counter to 1 and stores the record. -/
theorem C4_add_shoe_valid_witness :
    ∃ shoe s', add_shoe "alice" 100 initState okPayload = (Except.ok shoe, s') ∧
      shoe.id = 0 ∧ shoe.owner = "alice" ∧ s'.counter = 1 ∧
      mapGet s'.storage shoe.id = some shoe := by
  obtain ⟨shoe, s', h1, h2, _, h4, _, _, _, _, _, _, _, _, _, h14, h15, _, _⟩ :=
    C4_add_shoe_valid "alice" 100 initState okPayload (by rfl)
      (by simp [initState]) (by decide)
  exact ⟨shoe, s', h1, by simpa [initState] using h2, h4,
    by simpa [initState] using h14, h15⟩

theorem findIdx_beq_isSome_iff_mem (l : List String) (c : String) :
    (l.findIdx? (fun user => user == c)).isSome = true ↔ c ∈ l := by
  rw [List.findIdx?_isSome, List.any_eq_true]
  constructor
  · rintro ⟨x, hx, hbeq⟩
    obtain rfl : x = c := beq_iff_eq.mp hbeq
    exact hx
  · intro h
    exact ⟨c, h, beq_self_eq_true c⟩

/-- C6: for an absent id, `like_shoe` returns `NotFound`; for an existing
record whose `liked_by` already holds the caller, it returns `AlreadyLiked`
with the state unchanged; otherwise it sets `like` to 1 (a flag, whatever its
previous value), appends exactly the caller as one new entry at the end of
`liked_by`, leaves the other fields alone, writes the record back and
returns it. -/
theorem C6_like_shoe (caller : String) (s : StoreState) (id : Nat) :
    (mapGet s.storage id = none →
      like_shoe caller s id =
        (Except.error (Error.NotFound
          ("Shoe with ID " ++ toString id ++ " not found. Cannot like.")), s)) ∧
    (∀ sh, mapGet s.storage id = some sh → caller ∈ sh.liked_by →
      like_shoe caller s id =
        (Except.error (Error.AlreadyLiked
          ("Shoe with ID " ++ toString id ++ " has already been liked by caller: "
            ++ caller ++ ".")), s)) ∧
    (∀ sh, mapGet s.storage id = some sh → caller ∉ sh.liked_by →
      like_shoe caller s id =
        (Except.ok (likedShoe sh caller), do_insert s (likedShoe sh caller)) ∧
      (likedShoe sh caller).like = 1 ∧
      (likedShoe sh caller).liked_by = sh.liked_by ++ [caller] ∧
      (likedShoe sh caller).owner = sh.owner ∧
      (likedShoe sh caller).id = sh.id ∧
      (likedShoe sh caller).price = sh.price ∧
      (likedShoe sh caller).quantity = sh.quantity ∧
      (likedShoe sh caller).created_at = sh.created_at ∧
      (likedShoe sh caller).updated_at = sh.updated_at ∧
      (sh.id = id →
        mapGet (do_insert s (likedShoe sh caller)).storage id =
          some (likedShoe sh caller))) := by
  refine ⟨fun h => by simp [like_shoe, _get_shoe, h], fun sh hget hmem => ?_,
    fun sh hget hmem => ?_⟩
  · have hs : (sh.liked_by.findIdx? (fun user => user == caller)).isSome = true :=
      (findIdx_beq_isSome_iff_mem _ _).mpr hmem
    simp [like_shoe, _get_shoe, hget, hs]
  · have hs : (sh.liked_by.findIdx? (fun user => user == caller)).isSome = false :=
      Bool.eq_false_iff.mpr fun hcontra =>
        hmem ((findIdx_beq_isSome_iff_mem _ _).mp hcontra)
    refine ⟨by simp [like_shoe, _get_shoe, hget, hs, likedShoe, do_insert],
      rfl, rfl, rfl, rfl, rfl, rfl, rfl, rfl, fun hid => ?_⟩
    show mapGet (mapInsert s.storage (likedShoe sh caller).id _) id = _
    have hid' : (likedShoe sh caller).id = id := hid
    rw [hid']
    exact mapGet_mapInsert_self _ _ _

/-- The one-shoe store after `"bob"` has liked shoe 0. -/
def c6State : StoreState := (like_shoe "bob" c1State1 0).2

/-- The record stored at id 0 of `c6State`. -/
def c6Shoe : Shoe := (mapGet c6State.storage 0).getD dummyShoe

/-- Witness for C6: liking an absent id fails with `NotFound`; `"bob"`
liking shoe 0 a first time succeeds; a second like by `"bob"` fails with
`AlreadyLiked`. -/
theorem C6_like_shoe_witness :
    like_shoe "bob" initState 5 =
      (Except.error (Error.NotFound "Shoe with ID 5 not found. Cannot like."),
        initState) ∧
    like_shoe "bob" c1State1 0 =
      (Except.ok (likedShoe c1Shoe "bob"), do_insert c1State1 (likedShoe c1Shoe "bob")) ∧
    like_shoe "bob" c6State 0 =
      (Except.error (Error.AlreadyLiked
        "Shoe with ID 0 has already been liked by caller: bob."), c6State) :=
  ⟨(C6_like_shoe "bob" initState 5).1 (by decide),
   ((C6_like_shoe "bob" c1State1 0).2.2 c1Shoe (by decide) (by decide)).1,
   (C6_like_shoe "bob" c6State 0).2.1 c6Shoe (by decide) (by decide)⟩

/-- C10: `like_shoe` performs no ownership check: for an existing record and
a caller not yet in its `liked_by` set — whoever the owner is, no hypothesis
relates the caller to the stored owner — the call succeeds and appends the
caller. -/
theorem C10_like_no_ownership_check (caller : String) (s : StoreState)
    (id : Nat) (sh : Shoe) (hget : mapGet s.storage id = some sh)
    (hnl : caller ∉ sh.liked_by) :
    like_shoe caller s id =
      (Except.ok (likedShoe sh caller), do_insert s (likedShoe sh caller)) ∧
    (likedShoe sh caller).liked_by = sh.liked_by ++ [caller] := by
  have hs : (sh.liked_by.findIdx? (fun user => user == caller)).isSome = false :=
    Bool.eq_false_iff.mpr fun hcontra =>
      hnl ((findIdx_beq_isSome_iff_mem _ _).mp hcontra)
  exact ⟨by simp [like_shoe, _get_shoe, hget, hs, likedShoe, do_insert], rfl⟩

/-- Witness for C10: `"carol"`, who is not the owner `"alice"`, successfully
likes shoe 0. -/
theorem C10_like_no_ownership_check_witness :
    c1Shoe.owner = "alice" ∧
    like_shoe "carol" c1State1 0 =
      (Except.ok (likedShoe c1Shoe "carol"),
        do_insert c1State1 (likedShoe c1Shoe "carol")) :=
  ⟨by decide,
   (C10_like_no_ownership_check "carol" c1State1 0 c1Shoe (by decide) (by decide)).1⟩

/-- C8: when the record exists and the caller is its owner, `delete_shoe`
removes exactly that record and returns it, every other entry is unchanged,
and `get_shoe_by_id` afterwards returns `NotFound` naming the id. The
`Nodup` hypothesis is the stable map's key-uniqueness. -/
theorem C8_delete_shoe (caller : String) (s : StoreState) (id : Nat) (sh : Shoe)
    (hnd : (s.storage.map Prod.fst).Nodup)
    (hget : mapGet s.storage id = some sh) (hown : sh.owner = caller) :
    delete_shoe caller s id =
      some (Except.ok sh, { s with storage := mapRemove s.storage id }) ∧
    mapGet (mapRemove s.storage id) id = none ∧
    (∀ k, k ≠ id → mapGet (mapRemove s.storage id) k = mapGet s.storage k) ∧
    get_shoe_by_id { s with storage := mapRemove s.storage id } id =
      Except.error (Error.NotFound ("a shoe with id=" ++ toString id ++ " not found")) := by
  have hrm : mapGet (mapRemove s.storage id) id = none :=
    mapGet_mapRemove_self _ _ hnd
  refine ⟨?_, hrm, ?_, ?_⟩
  · simp [delete_shoe, _get_shoe, hget, _validate_owner, hown]
  · intro k hk
    exact mapGet_mapRemove_ne _ _ _ hk
  · simp [get_shoe_by_id, _get_shoe, hrm]

/-- Witness for C8: the owner `"alice"` deletes shoe 0 from the one-shoe
store; the lookup afterwards is `NotFound`. -/
theorem C8_delete_shoe_witness :
    delete_shoe "alice" c1State1 0 =
      some (Except.ok c1Shoe, { c1State1 with storage := mapRemove c1State1.storage 0 }) ∧
    get_shoe_by_id { c1State1 with storage := mapRemove c1State1.storage 0 } 0 =
      Except.error (Error.NotFound "a shoe with id=0 not found") := by
  obtain ⟨h1, _, _, h4⟩ :=
    C8_delete_shoe "alice" c1State1 0 c1Shoe (by decide) (by decide) (by decide)
  exact ⟨h1, by simpa using h4⟩

theorem storeOk_do_insert (s : StoreState) (v : Shoe)
    (hs : storeOk s = true) (hv : shoeOk v = true) :
    storeOk (do_insert s v) = true := by
  rw [storeOk, List.all_eq_true] at hs ⊢
  intro q hq
  rcases mem_of_mem_mapInsert _ _ _ _ hq with h' | h'
  · subst h'
    exact hv
  · exact hs q h'

/-- C1 counterexample: starting from the reachable one-shoe store (every
record of which satisfies `price ≥ 0 ∧ quantity > 0`), the owner calls
`update_shoe` with a payload whose quantity is 0; `update_shoe` does not
re-run validation, the call succeeds, and the resulting store holds a record
with `quantity = 0`, so the claimed invariant is not preserved. -/
theorem C1_invariant_counterexample :
    storeOk c1State1 = true ∧
    update_shoe "alice" 200 c1State1 0 zeroQtyPayload = some c1Step ∧
    storeOk c1State2 = false :=
  ⟨by decide, by rfl, by decide⟩

/-- C1 amended: the record invariant `price ≥ 0 ∧ quantity > 0` is preserved
by `add_shoe`, `like_shoe` and `delete_shoe`, and by `update_shoe` only when
the payload passes validation — `update_shoe` never re-runs it. -/
theorem C1_amended_invariant (caller : String) (now : Nat) (s : StoreState)
    (id : Nat) (p : ShoePayload) (hs : storeOk s = true) :
    storeOk (add_shoe caller now s p).2 = true ∧
    storeOk (like_shoe caller s id).2 = true ∧
    (∀ r s', delete_shoe caller s id = some (r, s') → storeOk s' = true) ∧
    (validate_shoe_payload p = Except.ok () →
      ∀ r s', update_shoe caller now s id p = some (r, s') → storeOk s' = true) := by
  refine ⟨?_, ?_, ?_, ?_⟩
  · cases hv : validate_shoe_payload p with
    | error e => simpa [add_shoe, hv] using hs
    | ok u =>
      cases u
      obtain ⟨_, hp, hq⟩ := (validate_shoe_payload_ok_iff p).mp hv
      have hok : shoeOk
          { owner := caller, id := s.counter, name := p.name, size := p.size,
            shoe_url := p.shoe_url, price := p.price, quantity := p.quantity,
            like := 0, liked_by := [], created_at := now, updated_at := none } = true := by
        simp only [shoeOk, is_valid_price, is_valid_quantity, Bool.and_eq_true,
          decide_eq_true_eq]
        exact ⟨hp, hq⟩
      simpa [add_shoe, hv] using storeOk_do_insert _ _ hs hok
  · cases hget : mapGet s.storage id with
    | none => simpa [like_shoe, _get_shoe, hget] using hs
    | some sh =>
      have hsh : shoeOk sh = true := by
        rw [storeOk, List.all_eq_true] at hs
        exact hs (id, sh) (mem_of_mapGet_eq_some _ _ _ hget)
      cases hidx : (sh.liked_by.findIdx? (fun user => user == caller)).isSome with
      | true => simpa [like_shoe, _get_shoe, hget, hidx] using hs
      | false =>
        have hok : shoeOk (likedShoe sh caller) = true := hsh
        simpa [like_shoe, _get_shoe, hget, hidx, likedShoe] using
          storeOk_do_insert _ _ hs hok
  · intro r s' h
    cases hget : mapGet s.storage id with
    | none => simp [delete_shoe, _get_shoe, hget] at h
    | some sh =>
      simp only [delete_shoe, _get_shoe, hget] at h
      cases hval : _validate_owner caller sh with
      | false =>
        simp only [hval, Bool.not_false, if_true, Option.some.injEq,
          Prod.mk.injEq] at h
        rw [← h.2]
        exact hs
      | true =>
        simp only [hval, Bool.not_true, Bool.false_eq_true, if_false,
          Option.some.injEq, Prod.mk.injEq] at h
        rw [← h.2]
        rw [storeOk, List.all_eq_true] at hs ⊢
        intro q hq
        exact hs q (mem_of_mem_mapRemove _ _ _ hq)
  · intro hv r s' h
    obtain ⟨_, hp, hq⟩ := (validate_shoe_payload_ok_iff p).mp hv
    cases hget : mapGet s.storage id with
    | none => simp [update_shoe, _get_shoe, hget] at h
    | some sh =>
      simp only [update_shoe, _get_shoe, hget] at h
      cases hval : _validate_owner caller sh with
      | false =>
        simp only [hval, Bool.not_false, if_true, Option.some.injEq,
          Prod.mk.injEq] at h
        rw [← h.2]
        exact hs
      | true =>
        simp only [hval, Bool.not_true, Bool.false_eq_true, if_false,
          Option.some.injEq, Prod.mk.injEq] at h
        rw [← h.2]
        have hok : shoeOk (updatedShoe sh p now) = true := by
          simp only [shoeOk, updatedShoe, is_valid_price, is_valid_quantity,
            Bool.and_eq_true, decide_eq_true_eq]
          exact ⟨hp, hq⟩
        exact storeOk_do_insert _ _ hs hok

/-- Witness for the amended C1 on the one-shoe store. -/
theorem C1_amended_invariant_witness :
    storeOk (add_shoe "alice" 300 c1State1 okPayload).2 = true ∧
    storeOk (like_shoe "bob" c1State1 0).2 = true :=
  ⟨(C1_amended_invariant "alice" 300 c1State1 0 okPayload (by decide)).1,
   (C1_amended_invariant "bob" 300 c1State1 0 okPayload (by decide)).2.1⟩

/-! ### Wrapping-sum lemmas for C9 -/

theorem wrap16_wrap16_add (a b : Int) : wrap16 (wrap16 a + b) = wrap16 (a + b) := by
  unfold wrap16
  omega

theorem foldl_wrap16_quantities (l : List (Nat × Shoe)) :
    ∀ acc : Int, l.foldl (fun a q => wrap16 (a + q.2.quantity)) (wrap16 acc) =
      wrap16 (acc + (l.map (fun q => q.2.quantity)).sum) := by
  induction l with
  | nil => intro acc; simp
  | cons q rest ih =>
    intro acc
    simp only [List.foldl_cons, List.map_cons, List.sum_cons]
    rw [wrap16_wrap16_add, ih (acc + q.2.quantity), add_assoc]

/-- C9 counterexample: the reachable two-shoe store with quantities 20000
and 20000 (each a valid payload) has mathematical stock total 40000, but
`total_number_of_shoes` computes in the signed 16-bit domain and returns
-25536. -/
theorem C9_total_counterexample :
    total_number_of_shoes c9State = -25536 ∧
    (c9State.storage.map (fun q => q.2.quantity)).sum = 40000 ∧
    total_number_of_shoes c9State ≠
      (c9State.storage.map (fun q => q.2.quantity)).sum :=
  ⟨by decide, by decide, by decide⟩

/-- C9 amended: `total_number_of_shoes` returns the mathematical sum of the
quantities wrapped into the signed 16-bit domain; it equals the mathematical
sum exactly when that sum lies within `[-32768, 32767]`. -/
theorem C9_amended_total (s : StoreState) :
    total_number_of_shoes s =
      wrap16 ((s.storage.map (fun q => q.2.quantity)).sum) ∧
    (-32768 ≤ (s.storage.map (fun q => q.2.quantity)).sum →
      (s.storage.map (fun q => q.2.quantity)).sum ≤ 32767 →
      total_number_of_shoes s = (s.storage.map (fun q => q.2.quantity)).sum) := by
  have h0 : total_number_of_shoes s =
      wrap16 ((s.storage.map (fun q => q.2.quantity)).sum) := by
    have hz : (0 : Int) = wrap16 0 := by norm_num [wrap16]
    rw [total_number_of_shoes, hz, foldl_wrap16_quantities, Int.zero_add]
  refine ⟨h0, fun hlo hhi => ?_⟩
  rw [h0, wrap16]
  omega

/-- Witness for the amended C9 on the one-shoe store (total 5, in range). -/
theorem C9_amended_total_witness :
    total_number_of_shoes c1State1 =
      wrap16 ((c1State1.storage.map (fun q => q.2.quantity)).sum) ∧
    total_number_of_shoes c1State1 =
      (c1State1.storage.map (fun q => q.2.quantity)).sum :=
  ⟨(C9_amended_total c1State1).1,
   (C9_amended_total c1State1).2 (by decide) (by decide)⟩

/-! ### Sorting and pagination lemmas for C7 -/

theorem take_min (n : Nat) (l : List Shoe) : l.take (min n l.length) = l.take n := by
  induction l generalizing n with
  | nil => simp
  | cons x xs ih =>
    cases n with
    | zero => simp
    | succ m =>
      have hmin : min (m + 1) (x :: xs).length = min m xs.length + 1 := by
        rw [List.length_cons]
        omega
      rw [hmin, List.take_succ_cons, List.take_succ_cons, ih]

theorem get_shoes_price_eq (s : StoreState) (page page_size : Nat)
    (h32 : page * page_size + page_size < 2 ^ 32) :
    get_shoes s page page_size "price" =
      some (Except.ok ((((s.storage.map Prod.snd).insertionSort priceRel).drop
        (page * page_size)).take page_size)) := by
  have hstart : (page * page_size) % 2 ^ 32 = page * page_size :=
    Nat.mod_eq_of_lt (by omega)
  have hend : (page * page_size + page_size) % 2 ^ 32 = page * page_size + page_size :=
    Nat.mod_eq_of_lt h32
  simp only [get_shoes]
  rw [if_pos trivial, hstart, hend]
  by_cases hge : page * page_size ≥
      ((s.storage.map Prod.snd).insertionSort priceRel).length
  · rw [if_pos hge, List.drop_eq_nil_of_le hge, List.take_nil]
  · rw [if_neg hge, if_neg (by omega)]
    have harith : min (page * page_size + page_size)
          ((s.storage.map Prod.snd).insertionSort priceRel).length - page * page_size
        = min page_size
            (((s.storage.map Prod.snd).insertionSort priceRel).drop
              (page * page_size)).length := by
      rw [List.length_drop]
      omega
    rw [harith, take_min]

theorem get_shoes_created_eq (s : StoreState) (page page_size : Nat)
    (h32 : page * page_size + page_size < 2 ^ 32) :
    get_shoes s page page_size "created_at" =
      some (Except.ok ((((s.storage.map Prod.snd).insertionSort createdRel).drop
        (page * page_size)).take page_size)) := by
  have hstart : (page * page_size) % 2 ^ 32 = page * page_size :=
    Nat.mod_eq_of_lt (by omega)
  have hend : (page * page_size + page_size) % 2 ^ 32 = page * page_size + page_size :=
    Nat.mod_eq_of_lt h32
  have hne : ("created_at" : String) ≠ "price" := by decide
  simp only [get_shoes]
  rw [if_neg hne, if_pos trivial, hstart, hend]
  by_cases hge : page * page_size ≥
      ((s.storage.map Prod.snd).insertionSort createdRel).length
  · rw [if_pos hge, List.drop_eq_nil_of_le hge, List.take_nil]
  · rw [if_neg hge, if_neg (by omega)]
    have harith : min (page * page_size + page_size)
          ((s.storage.map Prod.snd).insertionSort createdRel).length - page * page_size
        = min page_size
            (((s.storage.map Prod.snd).insertionSort createdRel).drop
              (page * page_size)).length := by
      rw [List.length_drop]
      omega
    rw [harith, take_min]

theorem flatten_pages_take (ps : Nat) (l : List Shoe) (N : Nat) :
    ((List.range N).map (fun i => (l.drop (i * ps)).take ps)).flatten =
      l.take (N * ps) := by
  induction N with
  | zero => simp
  | succ n ih =>
    rw [List.range_succ, List.map_append, List.flatten_append]
    simp only [List.map_cons, List.map_nil, List.flatten_cons, List.flatten_nil,
      List.append_nil]
    rw [ih, Nat.succ_mul, List.take_add]

/-- C7 counterexample: the pagination offsets are computed in `usize`, 32
bits on the canister's wasm32 target, and wrap in the deployed (release)
build. On the reachable one-record store, `page = page_size = 65536` makes
the start offset `65536 * 65536` wrap to 0, so `get_shoes` returns the full
(non-empty) first page, although the mathematical start offset `2^32` is at
or past the record count 1 and the claim then demands the empty list. -/
theorem C7_pagination_counterexample :
    65536 * 65536 ≥ (c1State1.storage.map Prod.snd).length ∧
    get_shoes c1State1 65536 65536 "price" = some (Except.ok [c1Shoe]) ∧
    (some (Except.ok [c1Shoe]) : Option (Except String (List Shoe))) ≠
      some (Except.ok []) :=
  ⟨by decide, by rfl, by simp⟩

/-- C7 amended: `get_shoes` computes the start offset `page * page_size`
and the slice end `start + page_size` in 32-bit `usize` arithmetic, which
wraps in the deployed build. For pagination arguments that do not overflow
(`page * page_size + page_size < 2^32`), it behaves as originally claimed:
key `"price"` (resp. `"created_at"`) returns the slice
`[page*page_size, min((page+1)*page_size, n))` of the full record set sorted
ascending by that key (a permutation of the records, sorted); any other key
yields the validation error and no default sort; a non-overflowing start
offset at or past `n` gives `Except.ok []`, not an error; and concatenating
the pages `0..N` (with `N * page_size < 2^32`) reproduces the whole sorted
set with no duplicates or omissions. -/
theorem C7_get_shoes (s : StoreState) (page page_size : Nat) (sort_by : String) :
    (page * page_size + page_size < 2 ^ 32 →
      get_shoes s page page_size "price" =
        some (Except.ok ((((s.storage.map Prod.snd).insertionSort priceRel).drop
          (page * page_size)).take page_size))) ∧
    ((s.storage.map Prod.snd).insertionSort priceRel).Perm (s.storage.map Prod.snd) ∧
    ((s.storage.map Prod.snd).insertionSort priceRel).Pairwise
      (fun a b => a.price ≤ b.price) ∧
    (page * page_size + page_size < 2 ^ 32 →
      get_shoes s page page_size "created_at" =
        some (Except.ok ((((s.storage.map Prod.snd).insertionSort createdRel).drop
          (page * page_size)).take page_size))) ∧
    ((s.storage.map Prod.snd).insertionSort createdRel).Perm (s.storage.map Prod.snd) ∧
    ((s.storage.map Prod.snd).insertionSort createdRel).Pairwise
      (fun a b => a.created_at ≤ b.created_at) ∧
    (sort_by ≠ "price" → sort_by ≠ "created_at" →
      get_shoes s page page_size sort_by =
        some (Except.error "Invalid sorting parameter")) ∧
    (page * page_size < 2 ^ 32 →
      page * page_size ≥ (s.storage.map Prod.snd).length →
      get_shoes s page page_size "price" = some (Except.ok [])) ∧
    (∀ N, N * page_size < 2 ^ 32 →
      (s.storage.map Prod.snd).length ≤ N * page_size →
      (pageList s page_size N).flatten =
        (s.storage.map Prod.snd).insertionSort priceRel) := by
  have hlenp : ((s.storage.map Prod.snd).insertionSort priceRel).length =
      (s.storage.map Prod.snd).length :=
    (List.perm_insertionSort priceRel _).length_eq
  refine ⟨get_shoes_price_eq s page page_size,
    List.perm_insertionSort priceRel _,
    List.sorted_insertionSort priceRel _,
    get_shoes_created_eq s page page_size,
    List.perm_insertionSort createdRel _,
    List.sorted_insertionSort createdRel _,
    ?_, ?_, ?_⟩
  · intro h1 h2
    simp only [get_shoes, if_neg h1, if_neg h2]
  · intro h32s hge
    have hstart : (page * page_size) % 2 ^ 32 = page * page_size :=
      Nat.mod_eq_of_lt h32s
    have hge' : page * page_size ≥
        ((s.storage.map Prod.snd).insertionSort priceRel).length := by
      rw [hlenp]
      exact hge
    simp only [get_shoes]
    rw [if_pos trivial, hstart, if_pos hge']
  · intro N hN32 hN
    unfold pageList
    have hEq : ∀ i ∈ List.range N,
        (match get_shoes s i page_size "price" with
          | some (Except.ok l) => l
          | _ => []) =
        ((((s.storage.map Prod.snd).insertionSort priceRel).drop
          (i * page_size)).take page_size) := by
      intro i hi
      have hi' : i < N := List.mem_range.mp hi
      have h32 : i * page_size + page_size < 2 ^ 32 := by
        have h1 : (i + 1) * page_size ≤ N * page_size :=
          Nat.mul_le_mul_right page_size (by omega)
        have h2 : i * page_size + page_size = (i + 1) * page_size :=
          (Nat.succ_mul i page_size).symm
        omega
      rw [get_shoes_price_eq s i page_size h32]
    rw [List.map_congr_left hEq, flatten_pages_take]
    apply List.take_of_length_le
    rw [hlenp]
    exact hN

/-- Three shoes of prices 30, 10, 20 added in that order. -/
def c7State : StoreState :=
  (add_shoe "alice" 3
    ((add_shoe "alice" 2
      ((add_shoe "alice" 1 initState { okPayload with price := 30 }).2)
      { okPayload with price := 10 }).2)
    { okPayload with price := 20 }).2

/-- Witness for C7 on the three-shoe store: an unknown key errors, a page
past the end is empty, and the two pages of size 2 rebuild the price-sorted
set — their prices being `[10, 20]` then `[30]`, the spec's example. -/
theorem C7_get_shoes_witness :
    get_shoes c7State 0 2 "size" = some (Except.error "Invalid sorting parameter") ∧
    get_shoes c7State 5 2 "price" = some (Except.ok []) ∧
    (pageList c7State 2 2).flatten =
      (c7State.storage.map Prod.snd).insertionSort priceRel ∧
    (pageList c7State 2 2).map (List.map Shoe.price) = [[10, 20], [30]] :=
  ⟨(C7_get_shoes c7State 0 2 "size").2.2.2.2.2.2.1 (by decide) (by decide),
   (C7_get_shoes c7State 5 2 "price").2.2.2.2.2.2.2.1 (by decide) (by decide),
   (C7_get_shoes c7State 5 2 "price").2.2.2.2.2.2.2.2 2 (by decide) (by decide),
   by decide⟩

end ShoeStore
